import Mathlib

/-!
Shallow embedding of the account/session/asset core of the drasl repository
(files src/config.go and src/front.go), together with proofs checking the
natural-language specification against it.

Conventions of the embedding:
* Go byte slices are modelled as `List Nat`, Go strings as `String`.
* The storage collaborator (gorm) is modelled as an in-memory list of user
  rows with the storage-enforced uniqueness constraints on `Username` and
  `PlayerName`; its operations return a `GoErr` alongside the new state,
  mirroring the way gorm surfaces errors in a result value.
* Randomness (crypto/rand, uuid.New, RandomHex) is passed in explicitly as a
  `RandSource`; in the model these collaborators always succeed, so the
  source's error checks on them take the nil-error branch.
* Handlers are pure functions from the application state and the request to
  the new application state and an observable `Response` (rendered result
  plus the cookies the handler set).
-/

/-- Go `error` values as they are distinguished by this codebase: gorm's
unique-constraint failure, gorm's record-not-found, and everything else. -/
inductive GoErr where
  | uniqueFailed
  | recordNotFound
  | other (msg : String)
deriving DecidableEq

/-- Modelled from the spec: `IsErrorUniqueFailed` is repository code outside
src/ that detects a "unique constraint failed" storage error from a generic
error value; a nil error is not a uniqueness violation. -/
def IsErrorUniqueFailed : Option GoErr → Bool
  | some .uniqueFailed => true
  | _ => false

/-- Go `sql.NullString`: a string together with a validity flag. -/
structure NullString where
  valid : Bool
  string : String
deriving DecidableEq

/-- Modelled from the spec: `MakeNullString` is repository code outside src/
turning an optional string into a `sql.NullString`. -/
def MakeNullString : Option String → NullString
  | none => { valid := false, string := "" }
  | some v => { valid := true, string := v }

/-- Modelled from the spec: `UnmakeNullString` is repository code outside
src/ turning a `sql.NullString` back into an optional string. -/
def UnmakeNullString (ns : NullString) : Option String :=
  if ns.valid then some ns.string else none

/-- A protocol access/client token pair carried on the user record; out of
scope for the claims beyond being a field of the record. -/
structure TokenPair where
  accessToken : String
  clientToken : String
deriving DecidableEq

/-- The user (account) record persisted by the storage collaborator,
mirroring the fields of the Go `User` struct that front.go reads or writes. -/
structure User where
  UUID : String
  Username : String
  PasswordSalt : List Nat
  PasswordHash : List Nat
  TokenPairs : List TokenPair
  PlayerName : String
  PreferredLanguage : String
  SkinModel : String
  BrowserToken : NullString
  SkinHash : NullString
  CapeHash : NullString
deriving DecidableEq

/-- Mirrors `rateLimitConfig` from src/config.go; `RequestsPerSecond` is a
float64 in Go and is modelled as a natural number (the default value 10 is
integral and no arithmetic is performed on it). -/
structure rateLimitConfig where
  Enable : Bool
  RequestsPerSecond : Nat
deriving DecidableEq

/-- Mirrors `bodySizeLimitConfig` from src/config.go. -/
structure bodySizeLimitConfig where
  Enable : Bool
  SizeLimit : String
deriving DecidableEq

/-- Mirrors `FallbackAPIServer` from src/config.go. -/
structure FallbackAPIServer where
  Nickname : String
  SessionURL : String
  AccountURL : String
  SkinDomain : String
deriving DecidableEq

/-- Mirrors `anonymousLoginConfig` from src/config.go. -/
structure anonymousLoginConfig where
  Allow : Bool
  UsernameRegex : String
  Password : String
deriving DecidableEq

/-- Mirrors `registrationNewPlayerConfig` from src/config.go. -/
structure registrationNewPlayerConfig where
  Allow : Bool
  AllowChoosingUUID : Bool
deriving DecidableEq

/-- Mirrors `registrationExistingPlayerConfig` from src/config.go. -/
structure registrationExistingPlayerConfig where
  Allow : Bool
  Nickname : String
  SessionURL : String
  AccountURL : String
  SetSkinURL : String
  RequireSkinVerification : Bool
deriving DecidableEq

/-- Modelled from the spec: front.go reads `Config.FrontEndServer.URL` as the
redirect target of every flow, but the `FrontEndServer` field is absent from
the `Config` struct in src/config.go; it is repository code outside src/. -/
structure frontEndServerConfig where
  URL : String
deriving DecidableEq

/-- Mirrors `Config` from src/config.go, extended with the `FrontEndServer`
section that front.go references (see `frontEndServerConfig`). -/
structure Config where
  InstanceName : String
  StateDirectory : String
  DataDirectory : String
  ApplicationOwner : String
  Domain : String
  BaseURL : String
  ListenAddress : String
  RateLimit : rateLimitConfig
  BodySize : bodySizeLimitConfig
  SignPublicKeys : Bool
  DisableTokenExpiry : Bool
  LogRequests : Bool
  HideListenAddress : Bool
  DefaultPreferredLanguage : String
  SkinSizeLimit : Nat
  AllowChangingPlayerName : Bool
  MinPasswordLength : Nat
  SkinForwarding : Bool
  FallbackAPIServers : List FallbackAPIServer
  AnonymousLogin : anonymousLoginConfig
  RegistrationNewPlayer : registrationNewPlayerConfig
  RegistrationExistingPlayer : registrationExistingPlayerConfig
  FrontEndServer : frontEndServerConfig
deriving DecidableEq

/-- Mirrors `defaultRateLimitConfig` from src/config.go. -/
def defaultRateLimitConfig : rateLimitConfig :=
  { Enable := true, RequestsPerSecond := 10 }

/-- Mirrors `DefaultConfig` from src/config.go; Go fields not assigned there
take their zero values (`false`, `""`, `0`, empty struct). -/
def DefaultConfig : Config :=
  { InstanceName := "Drasl"
    Domain := "drasl.example.com"
    StateDirectory := "/var/lib/drasl"
    DataDirectory := "/usr/share/drasl"
    ApplicationOwner := "Unmojang"
    BaseURL := "https://drasl.example.com"
    ListenAddress := "0.0.0.0:9090"
    RateLimit := defaultRateLimitConfig
    LogRequests := true
    SignPublicKeys := false
    DefaultPreferredLanguage := "en"
    SkinSizeLimit := 128
    AllowChangingPlayerName := true
    HideListenAddress := false
    SkinForwarding := true
    MinPasswordLength := 1
    DisableTokenExpiry := false
    BodySize := { Enable := false, SizeLimit := "" }
    FallbackAPIServers := [{ Nickname := "Mojang"
                             SessionURL := "https://sessionserver.mojang.com"
                             AccountURL := "https://api.mojang.com"
                             SkinDomain := "" }]
    AnonymousLogin := { Allow := false, UsernameRegex := "", Password := "" }
    RegistrationNewPlayer := { Allow := true, AllowChoosingUUID := false }
    RegistrationExistingPlayer :=
      { Allow := true
        Nickname := "Mojang"
        SessionURL := "https://sessionserver.mojang.com"
        AccountURL := "https://api.mojang.com"
        SetSkinURL := "https://www.minecraft.net/msaprofile/mygames/editskin"
        RequireSkinVerification := true }
    FrontEndServer := { URL := "" } }

/-- The storage collaborator's state: the persisted user rows. -/
structure DB where
  users : List User
deriving DecidableEq

/-- Result of a gorm `First` query: either the matching row or an error. -/
inductive DBResult where
  | found (u : User)
  | dberror (e : GoErr)
deriving DecidableEq

/-- Storage collaborator `Create`: inserts the row unless it violates the
storage-enforced uniqueness of `Username` or `PlayerName`, in which case the
state is unchanged and a unique-constraint error is reported. -/
def DBCreate (db : DB) (u : User) : DB × Option GoErr :=
  if db.users.any (fun v => decide (v.Username = u.Username ∨ v.PlayerName = u.PlayerName)) then
    (db, some .uniqueFailed)
  else
    ({ users := db.users ++ [u] }, none)

/-- Storage collaborator `Save`: updates the row with the same primary key
(`UUID`), failing with a unique-constraint error when another row holds the
same `Username` or `PlayerName`. -/
def DBSave (db : DB) (u : User) : DB × Option GoErr :=
  if db.users.any (fun v =>
      decide (v.UUID ≠ u.UUID ∧ (v.Username = u.Username ∨ v.PlayerName = u.PlayerName))) then
    (db, some .uniqueFailed)
  else
    ({ users := db.users.map (fun v => if v.UUID = u.UUID then u else v) }, none)

/-- Storage collaborator `Delete`: removes the row with the given primary
key. -/
def DBDelete (db : DB) (u : User) : DB :=
  { users := db.users.filter (fun v => decide (v.UUID ≠ u.UUID)) }

/-- Storage collaborator query `First(&user, "username = ?", username)`. -/
def DBFirstUsername (db : DB) (username : String) : DBResult :=
  match db.users.find? (fun v => decide (v.Username = username)) with
  | some u => .found u
  | none => .dberror .recordNotFound

/-- Storage collaborator query `First(&user, "browser_token = ?", value)`;
a SQL NULL token (invalid `NullString`) matches nothing. -/
def DBFirstBrowserToken (db : DB) (token : String) : DBResult :=
  match db.users.find? (fun v => v.BrowserToken.valid && decide (v.BrowserToken.string = token)) with
  | some u => .found u
  | none => .dberror .recordNotFound

/-- The content-addressed asset store: the skin and cape blob hashes
currently present. -/
structure AssetStore where
  skins : List String
  capes : List String
deriving DecidableEq

/-- Modelled from the spec: `DeleteSkin` is repository code outside src/
removing the skin blob keyed by the hash, with no cross-account reference
check. -/
def DeleteSkin (s : AssetStore) (hash : String) : AssetStore :=
  { s with skins := s.skins.filter (fun h => decide (h ≠ hash)) }

/-- Modelled from the spec: `DeleteCape` is repository code outside src/
removing the cape blob keyed by the hash. -/
def DeleteCape (s : AssetStore) (hash : String) : AssetStore :=
  { s with capes := s.capes.filter (fun h => decide (h ≠ hash)) }

/-- Resolving a hash in the asset store succeeds exactly when a skin blob
with that hash is present. -/
def SkinResolves (s : AssetStore) (hash : String) : Bool :=
  decide (hash ∈ s.skins)

/-- The application state reached from every handler: configuration, the
storage collaborator and the asset store. -/
structure App where
  config : Config
  db : DB
  assets : AssetStore
deriving DecidableEq

/-- The randomness collaborators (crypto/rand, uuid.New, RandomHex), passed
in explicitly; in this model they always succeed. -/
structure RandSource where
  byteAt : Nat → Nat
  uuidVal : String
  hexToken : String

/-- Filling an n-byte buffer from crypto/rand. -/
def randRead (r : RandSource) (n : Nat) : List Nat :=
  (List.range n).map r.byteAt

/-- Modelled from the spec: `HashPassword` is repository code outside src/;
a deterministic salted password hash — the same password and salt always
yield the same digest. The model uses an injective encoding of the pair. -/
def HashPassword (password : String) (salt : List Nat) : List Nat :=
  password.length :: (password.data.map Char.toNat) ++ (256 :: salt)

/-- Modelled from the spec: `IsValidPlayerName` is repository code outside
src/; per the reported message, a player name must be between 1 and 16
characters inclusive. -/
def IsValidPlayerName (name : String) : Bool :=
  1 ≤ name.length && name.length ≤ 16

/-- Modelled from the spec: `IsValidPreferredLanguage` is repository code
outside src/; it accepts a fixed set of language codes, including the
default "en". -/
def IsValidPreferredLanguage (language : String) : Bool :=
  language ∈ ["de", "en", "es", "fr", "it", "ja", "ko", "pt", "ru", "zh"]

/-- Modelled from the spec: `IsValidPassword` is repository code outside
src/; it enforces the configured minimum length, and an empty password is
always invalid. -/
def IsValidPassword (config : Config) (password : String) : Bool :=
  !(password = "") && config.MinPasswordLength ≤ password.length

/-- Mirrors the `SkinModelClassic` constant. -/
def SkinModelClassic : String := "classic"

/-- Mirrors the `SkinModelSlim` constant. -/
def SkinModelSlim : String := "slim"

/-- Modelled from the spec: `IsValidSkinModel` is repository code outside
src/; the skin model is the enumerated variant classic or slim. -/
def IsValidSkinModel (model : String) : Bool :=
  model = SkinModelClassic || model = SkinModelSlim

/-- What a handler rendered: a redirect, a plain-text response, an empty
status response, a non-nil Go error bubbled up, or the nil return with no
response written (the `return nil` paths of FrontUpdate). -/
inductive HandlerResult where
  | redirect (url : String)
  | content (status : Nat) (body : String)
  | noContent (status : Nat)
  | errorResult (e : GoErr)
  | nilNoResponse
deriving DecidableEq

/-- The observable outcome of a handler: the rendered result, the last value
written to the errorMessage cookie (none when the handler never set it), and
the value written to the browserToken cookie (some "" models clearing it). -/
structure Response where
  result : HandlerResult
  errorMessage : Option String
  browserToken : Option String
deriving DecidableEq

/-- Outcome of the `withBrowserAuthentication` wrapper from src/front.go:
a missing/empty cookie or an unknown token redirects to the front page (the
unknown-token case also clears the cookie); a found row runs the wrapped
handler; on any other storage error the source returns the stale `err` from
the cookie lookup, which is nil at that point. -/
inductive AuthOutcome where
  | redirectedToFront
  | staleErrReturned
  | authed (u : User)
deriving DecidableEq

/-- Mirrors `withBrowserAuthentication` from src/front.go, restricted to the
session-resolution outcome. -/
def withBrowserAuthentication (db : DB) (cookie : Option String) : AuthOutcome :=
  match cookie with
  | none => .redirectedToFront
  | some v =>
    if v = "" then .redirectedToFront
    else
      match DBFirstBrowserToken db v with
      | .dberror e => if e = .recordNotFound then .redirectedToFront else .staleErrReturned
      | .found u => .authed u

/-- Mirrors `FrontRegister` from src/front.go. The local `err` mirrors the
Go variable of the same name: its last assignment before `DB.Create` is the
(successful, hence nil) result of `RandomHex(32)`, and it is that stale
value — not `result.Error` — that the source passes to
`IsErrorUniqueFailed` inside the create-failure branch. -/
def FrontRegister (app : App) (username password : String) (r : RandSource) : App × Response :=
  if username = "" then
    (app, { result := .content 400 "Username cannot be blank!", errorMessage := none,
            browserToken := none })
  else if password = "" then
    (app, { result := .content 400 "Password cannot be blank!", errorMessage := none,
            browserToken := none })
  else
    let uuidStr := r.uuidVal
    let passwordSalt := randRead r 16
    let passwordHash := HashPassword password passwordSalt
    let browserToken := r.hexToken
    let err : Option GoErr := none
    let user : User :=
      { UUID := uuidStr
        Username := username
        PasswordSalt := passwordSalt
        PasswordHash := passwordHash
        TokenPairs := []
        PlayerName := username
        PreferredLanguage := "en"
        SkinModel := SkinModelClassic
        BrowserToken := MakeNullString (some browserToken)
        SkinHash := MakeNullString none
        CapeHash := MakeNullString none }
    let createRes := DBCreate app.db user
    match createRes.2 with
    | some e =>
      if IsErrorUniqueFailed err then
        (app, { result := .redirect app.config.FrontEndServer.URL,
                errorMessage := some "That username is taken.", browserToken := none })
      else
        (app, { result := .errorResult e, errorMessage := none, browserToken := none })
    | none =>
      ({ app with db := createRes.1 },
       { result := .redirect app.config.FrontEndServer.URL, errorMessage := none,
         browserToken := some browserToken })

/-- Mirrors `FrontLogin` from src/front.go; `newToken` is the value that
`RandomHex(32)` produces for this request. -/
def FrontLogin (app : App) (username password : String) (newToken : String) : App × Response :=
  match DBFirstUsername app.db username with
  | .dberror e =>
    if e = .recordNotFound then
      (app, { result := .redirect app.config.FrontEndServer.URL,
              errorMessage := some "User not found!", browserToken := none })
    else
      (app, { result := .errorResult e, errorMessage := none, browserToken := none })
  | .found user =>
    let passwordHash := HashPassword password user.PasswordSalt
    if passwordHash ≠ user.PasswordHash then
      (app, { result := .redirect app.config.FrontEndServer.URL,
              errorMessage := some "Incorrect password!", browserToken := none })
    else
      let user2 := { user with BrowserToken := MakeNullString (some newToken) }
      let saveRes := DBSave app.db user2
      ({ app with db := saveRes.1 },
       { result := .redirect app.config.FrontEndServer.URL, errorMessage := none,
         browserToken := some newToken })

/-- The ordered observable effects of `FrontDeleteAccount`. -/
inductive DeleteEvent where
  | clearedSessionCookie
  | deletedAccountRow (uuid : String)
  | deletedSkinBlob (hash : String)
  | deletedCapeBlob (hash : String)
deriving DecidableEq

/-- Mirrors `FrontDeleteAccount` from src/front.go (the handler wrapped by
`withBrowserAuthentication`, given the authenticated user), also producing
the ordered trace of its effects. -/
def FrontDeleteAccount (app : App) (user : User) : App × Response × List DeleteEvent :=
  let ev0 : List DeleteEvent := [.clearedSessionCookie]
  let oldSkinHash := UnmakeNullString user.SkinHash
  let oldCapeHash := UnmakeNullString user.CapeHash
  let db2 := DBDelete app.db user
  let ev1 := ev0 ++ [.deletedAccountRow user.UUID]
  let step2 : AssetStore × List DeleteEvent :=
    match oldSkinHash with
    | some h => (DeleteSkin app.assets h, ev1 ++ [.deletedSkinBlob h])
    | none => (app.assets, ev1)
  let step3 : AssetStore × List DeleteEvent :=
    match oldCapeHash with
    | some h => (DeleteCape step2.1 h, step2.2 ++ [.deletedCapeBlob h])
    | none => (step2.1, step2.2)
  ({ app with db := db2, assets := step3.1 },
   { result := .redirect app.config.FrontEndServer.URL, errorMessage := none,
     browserToken := some "" },
   step3.2)

/-- A validated, canonicalized image, identified by the content hash that
storing it produces. -/
structure ValidImage where
  hash : String
deriving DecidableEq

/-- Outcome of `ValidateSkin` / `ValidateCape`: a valid image, or the
message of the validation error. -/
inductive ValidateResult where
  | valid (img : ValidImage)
  | invalid (msg : String)
deriving DecidableEq

/-- The form fields of a POST /update request; `hasSkinFile` / `hasCapeFile`
record whether `c.FormFile` found the multipart file field. -/
structure UpdateRequest where
  playerName : String
  password : String
  preferredLanguage : String
  skinModel : String
  skinUrl : String
  capeUrl : String
  hasSkinFile : Bool
  hasCapeFile : Bool

/-- The behavior of FrontUpdate's effectful collaborators for one request:
the randomness source, the outcomes of opening the uploaded files, of the
remote fetches (`http.Get`), of image validation, and of the store/assign
steps (`SetSkin`/`SetCape`); a `some e` means that step fails with `e`. -/
structure UpdateWorld where
  rand : RandSource
  skinFileOpen : Option GoErr
  skinFetch : Option GoErr
  skinValidate : ValidateResult
  skinSet : Option GoErr
  capeFileOpen : Option GoErr
  capeFetch : Option GoErr
  capeValidate : ValidateResult
  capeSet : Option GoErr

/-- Modelled from the spec: `SetSkin` is repository code outside src/; on
success it writes the blob keyed by the content hash (deduplicating) and
assigns `SkinHash` on the in-memory user record, persisting nothing else.
The `failure` argument is this call's outcome supplied by the world. -/
def SetSkin (failure : Option GoErr) (assets : AssetStore) (user : User) (img : ValidImage) :
    Option GoErr × AssetStore × User :=
  match failure with
  | some e => (some e, assets, user)
  | none =>
    (none,
     { assets with skins := if assets.skins.contains img.hash then assets.skins
                            else assets.skins ++ [img.hash] },
     { user with SkinHash := MakeNullString (some img.hash) })

/-- Modelled from the spec: `SetCape` is repository code outside src/,
the cape counterpart of `SetSkin`. -/
def SetCape (failure : Option GoErr) (assets : AssetStore) (user : User) (img : ValidImage) :
    Option GoErr × AssetStore × User :=
  match failure with
  | some e => (some e, assets, user)
  | none =>
    (none,
     { assets with capes := if assets.capes.contains img.hash then assets.capes
                            else assets.capes ++ [img.hash] },
     { user with CapeHash := MakeNullString (some img.hash) })

/-- Mirrors `FrontUpdate` from src/front.go (the handler wrapped by
`withBrowserAuthentication`, given the authenticated user). Control flow
follows the source line by line, including:
* the invalid-password branch sets the error cookie but does not return, so
  the new salt and hash are still assigned and the update continues;
* in the skin-by-URL and cape-by-URL branches a `SetSkin`/`SetCape` failure
  executes `return nil` — the handler ends with no error, no response and no
  save — whereas the same failure in the file-upload branches returns the
  error.
The errorMessage cookie is last-write-wins, threaded as `msg`. -/
def FrontUpdate (app : App) (user0 : User) (req : UpdateRequest) (w : UpdateWorld) :
    App × Response :=
  if ¬ IsValidPlayerName req.playerName then
    (app, { result := .redirect app.config.FrontEndServer.URL,
            errorMessage := some "Player name must be between 1 and 16 characters (inclusive).",
            browserToken := none })
  else
  let user1 := { user0 with PlayerName := req.playerName }
  if ¬ IsValidPreferredLanguage req.preferredLanguage then
    (app, { result := .redirect app.config.FrontEndServer.URL,
            errorMessage := some "Invalid preferred language.", browserToken := none })
  else
  let user2 := { user1 with PreferredLanguage := req.preferredLanguage }
  let pwStep : User × Option String :=
    if req.password ≠ "" then
      let msg := if ¬ IsValidPassword app.config req.password then some "Invalid password."
                 else none
      let passwordSalt := randRead w.rand 16
      let passwordHash := HashPassword req.password passwordSalt
      ({ user2 with PasswordSalt := passwordSalt, PasswordHash := passwordHash }, msg)
    else (user2, none)
  let user3 := pwStep.1
  let msg := pwStep.2
  if ¬ IsValidSkinModel req.skinModel then
    (app, { result := .noContent 400, errorMessage := msg, browserToken := none })
  else
  let user4 := { user3 with SkinModel := req.skinModel }
  let doSave : AssetStore → User → App × Response := fun assets5 user5 =>
    let saveRes := DBSave app.db user5
    match saveRes.2 with
    | some e =>
      if IsErrorUniqueFailed (some e) then
        ({ app with assets := assets5 },
         { result := .redirect app.config.FrontEndServer.URL,
           errorMessage := some "That player name is taken.", browserToken := none })
      else
        ({ app with assets := assets5 },
         { result := .errorResult e, errorMessage := msg, browserToken := none })
    | none =>
      ({ app with db := saveRes.1, assets := assets5 },
       { result := .redirect app.config.FrontEndServer.URL, errorMessage := msg,
         browserToken := none })
  let capeBlock : AssetStore → User → App × Response := fun assets4 user4c =>
    if req.hasCapeFile then
      match w.capeFileOpen with
      | some e =>
        ({ app with assets := assets4 },
         { result := .errorResult e, errorMessage := msg, browserToken := none })
      | none =>
        match w.capeValidate with
        | .invalid emsg =>
          ({ app with assets := assets4 },
           { result := .redirect app.config.FrontEndServer.URL,
             errorMessage := some ("Error using that cape: " ++ emsg), browserToken := none })
        | .valid img =>
          let setRes := SetCape w.capeSet assets4 user4c img
          match setRes.1 with
          | some e =>
            ({ app with assets := assets4 },
             { result := .errorResult e, errorMessage := msg, browserToken := none })
          | none => doSave setRes.2.1 setRes.2.2
    else if req.capeUrl ≠ "" then
      match w.capeFetch with
      | some _ =>
        ({ app with assets := assets4 },
         { result := .redirect app.config.FrontEndServer.URL,
           errorMessage := some "Couldn't download cape from that URL.", browserToken := none })
      | none =>
        match w.capeValidate with
        | .invalid emsg =>
          ({ app with assets := assets4 },
           { result := .redirect app.config.FrontEndServer.URL,
             errorMessage := some ("Error using that cape: " ++ emsg), browserToken := none })
        | .valid img =>
          let setRes := SetCape w.capeSet assets4 user4c img
          match setRes.1 with
          | some _ =>
            ({ app with assets := assets4 },
             { result := .nilNoResponse, errorMessage := msg, browserToken := none })
          | none => doSave setRes.2.1 setRes.2.2
    else doSave assets4 user4c
  if req.hasSkinFile then
    match w.skinFileOpen with
    | some e => (app, { result := .errorResult e, errorMessage := msg, browserToken := none })
    | none =>
      match w.skinValidate with
      | .invalid emsg =>
        (app, { result := .redirect app.config.FrontEndServer.URL,
                errorMessage := some ("Error using that skin: " ++ emsg), browserToken := none })
      | .valid img =>
        let setRes := SetSkin w.skinSet app.assets user4 img
        match setRes.1 with
        | some e => (app, { result := .errorResult e, errorMessage := msg, browserToken := none })
        | none => capeBlock setRes.2.1 setRes.2.2
  else if req.skinUrl ≠ "" then
    match w.skinFetch with
    | some _ =>
      (app, { result := .redirect app.config.FrontEndServer.URL,
              errorMessage := some "Couldn't download skin from that URL.", browserToken := none })
    | none =>
      match w.skinValidate with
      | .invalid emsg =>
        (app, { result := .redirect app.config.FrontEndServer.URL,
                errorMessage := some ("Error using that skin: " ++ emsg), browserToken := none })
      | .valid img =>
        let setRes := SetSkin w.skinSet app.assets user4 img
        match setRes.1 with
        | some _ => (app, { result := .nilNoResponse, errorMessage := msg, browserToken := none })
        | none => capeBlock setRes.2.1 setRes.2.2
  else capeBlock app.assets user4

/-- An RSA private key, abstracted to its mathematical content; the claims
about the Key Manager concern the control flow of `ReadOrCreateKey` and the
encode/decode round trip, not RSA arithmetic. -/
structure RsaPrivateKey where
  n : Nat
deriving DecidableEq

/-- Collaborator model of `x509.MarshalPKCS8PrivateKey`: the canonical DER
encoding of the key. -/
def MarshalPKCS8PrivateKey (k : RsaPrivateKey) : List Nat :=
  [k.n]

/-- Collaborator model of `x509.ParsePKCS8PrivateKey`: decodes a canonical
encoding back to the key, failing on anything else. -/
def ParsePKCS8PrivateKey (der : List Nat) : Option RsaPrivateKey :=
  match der with
  | [n] => some { n := n }
  | _ => none

/-- Collaborator model of blake3.Sum512: a deterministic digest of the
input bytes. -/
def Blake3Sum512 (data : List Nat) : List Nat :=
  data.length :: data

/-- Mirrors `KeyB3Sum512` from src/config.go: the BLAKE3-512 digest of the
key's PKCS#8 DER encoding. -/
def KeyB3Sum512 (key : RsaPrivateKey) : List Nat :=
  Blake3Sum512 (MarshalPKCS8PrivateKey key)

/-- The key file as the filesystem holds it: its content and whether reading
it succeeds. -/
structure KeyFile where
  content : List Nat
  readable : Bool
deriving DecidableEq

/-- The filesystem state at the state-directory key path
(`StateDirectory/key.pkcs8`): absent, or a file. -/
structure KeyFS where
  keyFile : Option KeyFile
deriving DecidableEq

/-- Collaborator model of `os.ReadFile` at the key path: an absent file or a
present-but-unreadable file yields an error. -/
def osReadFile (fs : KeyFS) : Option GoErr × List Nat :=
  match fs.keyFile with
  | none => (some (.other "no such file or directory"), [])
  | some f => if f.readable then (none, f.content) else (some (.other "permission denied"), [])

/-- Collaborator model of `os.WriteFile` at the key path: replaces whatever
the filesystem held there with the given content, readable by its owner. -/
def osWriteFile (_fs : KeyFS) (der : List Nat) : KeyFS :=
  { keyFile := some { content := der, readable := true } }

/-- Outcome of `ReadOrCreateKey`: the key and the resulting filesystem, or a
fatal abort (`Check(err)` calling log.Fatal), tagged with the failing step. -/
inductive KeyResult where
  | okKey (k : RsaPrivateKey) (fs : KeyFS)
  | fatal (reason : String)
deriving DecidableEq

/-- Mirrors `ReadOrCreateKey` from src/config.go: when `os.ReadFile`
succeeds the bytes are parsed (a parse failure is fatal via `Check`); on any
read error — the source does not distinguish a missing file from an
unreadable one — a fresh 4096-bit RSA key is generated, marshalled and
written, and returned. `freshKey` is the key `rsa.GenerateKey` produces; in
this model generation, marshalling and writing succeed. -/
def ReadOrCreateKey (fs : KeyFS) (freshKey : RsaPrivateKey) : KeyResult :=
  let readRes := osReadFile fs
  match readRes.1 with
  | none =>
    match ParsePKCS8PrivateKey readRes.2 with
    | some key => .okKey key fs
    | none => .fatal "ParsePKCS8PrivateKey"
  | some _ =>
    let der := MarshalPKCS8PrivateKey freshKey
    .okKey freshKey (osWriteFile fs der)

/-- The fingerprint a run of `ReadOrCreateKey` yields, when it yields a
key. -/
def keyFingerprintOfRun : KeyResult → Option (List Nat)
  | .okKey k _ => some (KeyB3Sum512 k)
  | .fatal _ => none

/-!
Concrete fixtures used to evaluate the handlers on specific inputs.
-/

/-- A fixed randomness source: every random byte is 7, the fresh uuid is
"uuid-1", the fresh hex session token is "tok-1". -/
def rFix : RandSource :=
  { byteAt := fun _ => 7, uuidVal := "uuid-1", hexToken := "tok-1" }

/-- An empty asset store. -/
def emptyAssets : AssetStore := { skins := [], capes := [] }

/-- An account fixture for the registered user alice, with the password
"secret1" hashed against salt [3]. -/
def aliceFix : User :=
  { UUID := "u1"
    Username := "alice"
    PasswordSalt := [3]
    PasswordHash := HashPassword "secret1" [3]
    TokenPairs := []
    PlayerName := "alice"
    PreferredLanguage := "en"
    SkinModel := SkinModelClassic
    BrowserToken := { valid := true, string := "t1" }
    SkinHash := { valid := false, string := "" }
    CapeHash := { valid := false, string := "" } }

/-- An application state whose configuration disables new-player
registration, with an empty database. -/
def appRegDisabled : App :=
  { config := { DefaultConfig with
                  RegistrationNewPlayer := { Allow := false, AllowChoosingUUID := false }
                  FrontEndServer := { URL := "/" } }
    db := { users := [] }
    assets := emptyAssets }

/-- C1: the configured registration policy is supposed to gate FrontRegister,
but the handler never consults it: with RegistrationNewPlayer.Allow = false
a register request still succeeds (redirect outcome) and creates the
account. -/
theorem frontRegister_ignores_disabled_registration :
    appRegDisabled.config.RegistrationNewPlayer.Allow = false ∧
    (FrontRegister appRegDisabled "alice" "secret1" rFix).2.result = .redirect "/" ∧
    (FrontRegister appRegDisabled "alice" "secret1" rFix).1.db.users.map
        (fun u => u.Username) = ["alice"] := by
  exact ⟨rfl, rfl, rfl⟩

/-- An application state with a minimum password length of 8 and the single
account alice. -/
def appMinPw8 : App :=
  { config := { DefaultConfig with MinPasswordLength := 8, FrontEndServer := { URL := "/" } }
    db := { users := [aliceFix] }
    assets := emptyAssets }

/-- An update request changing only the password, to the invalid (too short
for the configured minimum of 8) value "short". -/
def reqShortPw : UpdateRequest :=
  { playerName := "alice", password := "short", preferredLanguage := "en"
    skinModel := "classic", skinUrl := "", capeUrl := ""
    hasSkinFile := false, hasCapeFile := false }

/-- A collaborator world for update requests that touch no skin or cape. -/
def worldNoAssets : UpdateWorld :=
  { rand := rFix
    skinFileOpen := none, skinFetch := none, skinValidate := .invalid "", skinSet := none
    capeFileOpen := none, capeFetch := none, capeValidate := .invalid "", capeSet := none }

/-- C2: a non-empty password that fails IsValidPassword does not abort the
update: the source sets the error cookie but is missing the early return, so
a fresh salt and the hash of the invalid password are assigned and the whole
update is persisted, and the handler still ends in the success redirect. -/
theorem frontUpdate_invalid_password_still_persisted :
    IsValidPassword appMinPw8.config "short" = false ∧
    (FrontUpdate appMinPw8 aliceFix reqShortPw worldNoAssets).2.result = .redirect "/" ∧
    (FrontUpdate appMinPw8 aliceFix reqShortPw worldNoAssets).2.errorMessage =
      some "Invalid password." ∧
    (FrontUpdate appMinPw8 aliceFix reqShortPw worldNoAssets).1.db.users =
      [{ aliceFix with PasswordSalt := randRead rFix 16
                       PasswordHash := HashPassword "short" (randRead rFix 16) }] ∧
    HashPassword "short" (randRead rFix 16) ≠ aliceFix.PasswordHash := by
  refine ⟨by decide, rfl, rfl, by decide, by decide⟩

/-- An application state holding the account alice, with an otherwise
default configuration. -/
def appAlice : App :=
  { config := { DefaultConfig with FrontEndServer := { URL := "/" } }
    db := { users := [aliceFix] }
    assets := emptyAssets }

/-- C3: registering a username that collides with an existing account makes
DB.Create report a unique-constraint violation, but the source passes the
stale nil `err` from RandomHex to IsErrorUniqueFailed instead of
result.Error, so the flow surfaces the raw unclassified error and never the
"That username is taken." outcome. -/
theorem frontRegister_conflict_left_unclassified :
    (FrontRegister appAlice "alice" "other" rFix).2.result = .errorResult .uniqueFailed ∧
    (FrontRegister appAlice "alice" "other" rFix).2.errorMessage = none ∧
    (FrontRegister appAlice "alice" "other" rFix).1 = appAlice := by
  exact ⟨rfl, rfl, rfl⟩

/-- C4 counterexample: the two authentication-failure causes are observably
different — an unknown username and a wrong password for an existing
account produce different responses (distinct error-message cookies). -/
theorem frontLogin_failure_outputs_differ :
    (FrontLogin appAlice "bob" "secret1" "t9").2 ≠
      (FrontLogin appAlice "alice" "wrongpw" "t9").2 := by
  decide

/-- C4 (amended): each login-failure cause yields its own cause-identifying
message — an unknown username reports "User not found!" and a wrong
password for an existing account reports "Incorrect password!", both as
redirects to the front page. -/
theorem frontLogin_failure_messages (app : App) (username password newToken : String) :
    (DBFirstUsername app.db username = .dberror .recordNotFound →
      (FrontLogin app username password newToken).2 =
        { result := .redirect app.config.FrontEndServer.URL
          errorMessage := some "User not found!", browserToken := none }) ∧
    (∀ u : User, DBFirstUsername app.db username = .found u →
      HashPassword password u.PasswordSalt ≠ u.PasswordHash →
      (FrontLogin app username password newToken).2 =
        { result := .redirect app.config.FrontEndServer.URL
          errorMessage := some "Incorrect password!", browserToken := none }) := by
  constructor
  · intro h
    simp [FrontLogin, h]
  · intro u h hne
    simp [FrontLogin, h, hne]

/-- C4 witness: the two branches of frontLogin_failure_messages, evaluated
on the appAlice fixture. -/
theorem frontLogin_failure_messages_witness :
    (FrontLogin appAlice "bob" "secret1" "t9").2 =
      { result := .redirect "/", errorMessage := some "User not found!",
        browserToken := none } ∧
    (FrontLogin appAlice "alice" "wrongpw" "t9").2 =
      { result := .redirect "/", errorMessage := some "Incorrect password!",
        browserToken := none } :=
  ⟨(frontLogin_failure_messages appAlice "bob" "secret1" "t9").1 (by decide),
   (frontLogin_failure_messages appAlice "alice" "wrongpw" "t9").2 aliceFix (by decide)
     (by decide)⟩

/-- A key path holding a file that is present but cannot be read. -/
def fsUnreadable : KeyFS := { keyFile := some { content := [5, 6], readable := false } }

/-- C5 counterexample: with a present-but-unreadable key file,
ReadOrCreateKey does not abort fatally — it generates a fresh key, writes
it over the key path, and returns it. -/
theorem readOrCreateKey_unreadable_regenerates :
    ReadOrCreateKey fsUnreadable { n := 7 } =
      .okKey { n := 7 } { keyFile := some { content := [7], readable := true } } := by
  rfl

/-- C5 (amended): ReadOrCreateKey treats every read failure — a missing key
file and a present-but-unreadable one alike — as the generate-and-write
case and never aborts there; the fatal abort happens only when the file is
read successfully but its bytes fail PKCS#8 parsing. -/
theorem readOrCreateKey_read_failure_behavior (fs : KeyFS) (k : RsaPrivateKey) (e : GoErr) :
    ((osReadFile fs).1 = some e →
      ReadOrCreateKey fs k = .okKey k (osWriteFile fs (MarshalPKCS8PrivateKey k))) ∧
    ((osReadFile fs).1 = none → ParsePKCS8PrivateKey (osReadFile fs).2 = none →
      ReadOrCreateKey fs k = .fatal "ParsePKCS8PrivateKey") := by
  constructor
  · intro h
    simp [ReadOrCreateKey, h]
  · intro h hp
    simp [ReadOrCreateKey, h, hp]

/-- C5 witness: both branches of readOrCreateKey_read_failure_behavior at
concrete states — a missing file regenerates, a readable file with
unparsable bytes is fatal. -/
theorem readOrCreateKey_read_failure_behavior_witness :
    ReadOrCreateKey { keyFile := none } { n := 7 } =
      .okKey { n := 7 } { keyFile := some { content := [7], readable := true } } ∧
    ReadOrCreateKey { keyFile := some { content := [1, 2], readable := true } } { n := 7 } =
      .fatal "ParsePKCS8PrivateKey" :=
  ⟨(readOrCreateKey_read_failure_behavior { keyFile := none } { n := 7 }
      (.other "no such file or directory")).1 rfl,
   (readOrCreateKey_read_failure_behavior
      { keyFile := some { content := [1, 2], readable := true } } { n := 7 }
      (.other "unused")).2 rfl rfl⟩

/-- C9: a first start with no key file generates and persists the fresh key;
a second start over the persisted file loads the identical key, so the
BLAKE3-512 fingerprint computed before and after the restart is the same. -/
theorem readOrCreateKey_roundtrip_fingerprint (k k2 : RsaPrivateKey) :
    ReadOrCreateKey { keyFile := none } k =
      .okKey k (osWriteFile { keyFile := none } (MarshalPKCS8PrivateKey k)) ∧
    ReadOrCreateKey (osWriteFile { keyFile := none } (MarshalPKCS8PrivateKey k)) k2 =
      .okKey k (osWriteFile { keyFile := none } (MarshalPKCS8PrivateKey k)) ∧
    keyFingerprintOfRun
        (ReadOrCreateKey (osWriteFile { keyFile := none } (MarshalPKCS8PrivateKey k)) k2) =
      some (KeyB3Sum512 k) := by
  obtain ⟨n⟩ := k
  exact ⟨rfl, rfl, rfl⟩

/-- The account record that a successful FrontRegister persists for the
given inputs and randomness: Go zero values for the fields the source does
not assign. -/
def registeredUser (username password : String) (r : RandSource) : User :=
  { UUID := r.uuidVal
    Username := username
    PasswordSalt := randRead r 16
    PasswordHash := HashPassword password (randRead r 16)
    TokenPairs := []
    PlayerName := username
    PreferredLanguage := "en"
    SkinModel := SkinModelClassic
    BrowserToken := MakeNullString (some r.hexToken)
    SkinHash := MakeNullString none
    CapeHash := MakeNullString none }

/-- C7 (amended): a registration with non-blank username and password whose
create does not collide appends exactly the expected account — playerName
equals username, classic skin model, the hard-coded preferred language "en"
(not the configured default language), the fresh uuid, a 16-byte fresh
salt, the hash of the password under that salt — and the response issues
the fresh session token as the browserToken cookie. -/
theorem frontRegister_success_shape (app : App) (username password : String) (r : RandSource)
    (hu : username ≠ "") (hp : password ≠ "")
    (hfresh : ∀ v, v ∈ app.db.users → v.Username ≠ username ∧ v.PlayerName ≠ username) :
    FrontRegister app username password r =
      ({ app with db := { users := app.db.users ++ [registeredUser username password r] } },
       { result := .redirect app.config.FrontEndServer.URL, errorMessage := none
         browserToken := some r.hexToken }) ∧
    (registeredUser username password r).PlayerName = username ∧
    (registeredUser username password r).SkinModel = SkinModelClassic ∧
    (registeredUser username password r).PreferredLanguage = "en" ∧
    (registeredUser username password r).PasswordSalt.length = 16 ∧
    (registeredUser username password r).PasswordHash =
      HashPassword password (registeredUser username password r).PasswordSalt ∧
    (registeredUser username password r).UUID = r.uuidVal ∧
    (registeredUser username password r).BrowserToken = MakeNullString (some r.hexToken) := by
  have hNoCollision : ¬ ∃ x ∈ app.db.users, x.Username = username ∨ x.PlayerName = username := by
    rintro ⟨x, hx, hcol⟩
    rcases hcol with h | h
    · exact (hfresh x hx).1 h
    · exact (hfresh x hx).2 h
  refine ⟨?_, rfl, rfl, rfl, ?_, rfl, rfl, rfl⟩
  · simp [FrontRegister, hu, hp, DBCreate, hNoCollision, registeredUser]
  · simp [registeredUser, randRead]

/-- An application state whose configured default preferred language is
"de", with an empty database. -/
def appLangDe : App :=
  { config := { DefaultConfig with
                  DefaultPreferredLanguage := "de"
                  FrontEndServer := { URL := "/" } }
    db := { users := [] }
    assets := emptyAssets }

/-- C7 counterexample: with the configured default language "de", the
account a successful registration creates still has preferred language
"en" — FrontRegister hard-codes "en" and ignores
Config.DefaultPreferredLanguage. -/
theorem frontRegister_language_not_from_config :
    appLangDe.config.DefaultPreferredLanguage = "de" ∧
    (FrontRegister appLangDe "alice" "secret1" rFix).1.db.users.map
        (fun u => u.PreferredLanguage) = ["en"] ∧
    ("en" : String) ≠ "de" := by
  exact ⟨rfl, rfl, by decide⟩

/-- C7 witness: frontRegister_success_shape evaluated on the appLangDe
fixture. -/
theorem frontRegister_success_shape_witness :
    FrontRegister appLangDe "alice" "secret1" rFix =
      ({ appLangDe with db := { users := [registeredUser "alice" "secret1" rFix] } },
       { result := .redirect "/", errorMessage := none, browserToken := some "tok-1" }) ∧
    (registeredUser "alice" "secret1" rFix).PlayerName = "alice" ∧
    (registeredUser "alice" "secret1" rFix).SkinModel = SkinModelClassic ∧
    (registeredUser "alice" "secret1" rFix).PreferredLanguage = "en" ∧
    (registeredUser "alice" "secret1" rFix).PasswordSalt.length = 16 ∧
    (registeredUser "alice" "secret1" rFix).PasswordHash =
      HashPassword "secret1" (registeredUser "alice" "secret1" rFix).PasswordSalt ∧
    (registeredUser "alice" "secret1" rFix).UUID = "uuid-1" ∧
    (registeredUser "alice" "secret1" rFix).BrowserToken = MakeNullString (some "tok-1") :=
  frontRegister_success_shape appLangDe "alice" "secret1" rFix (by decide) (by decide)
    (by intro v hv; exact absurd hv (List.not_mem_nil v))

/-- Helper: `find?` over a mapped list, when every element the marker `c`
accepts maps to the same image `b0` that the test accepts, and the image of
every other element fails the test. -/
theorem find_map_marker {α β : Type} (l : List α) (f : α → β) (p : β → Bool)
    (c : α → Bool) (b0 : β)
    (hex : ∃ a, a ∈ l ∧ c a = true)
    (hpos : ∀ a, a ∈ l → c a = true → p (f a) = true ∧ f a = b0)
    (hneg : ∀ a, a ∈ l → c a = false → p (f a) = false) :
    (l.map f).find? p = some b0 := by
  induction l with
  | nil =>
    obtain ⟨a, ha, _⟩ := hex
    exact absurd ha (List.not_mem_nil a)
  | cons a t ih =>
    cases hca : c a with
    | true =>
      obtain ⟨hpa, hfa⟩ := hpos a (List.mem_cons_self a t) hca
      rw [List.map_cons, List.find?_cons_of_pos _ hpa, hfa]
    | false =>
      have hpa : p (f a) = false := hneg a (List.mem_cons_self a t) hca
      rw [List.map_cons, List.find?_cons_of_neg _ (by simp [hpa])]
      apply ih
      · obtain ⟨x, hx, hcx⟩ := hex
        rcases List.mem_cons.mp hx with h | h
        · exact absurd (h ▸ hcx) (by simp [hca])
        · exact ⟨x, h, hcx⟩
      · intro x hx hcx
        exact hpos x (List.mem_cons_of_mem a hx) hcx
      · intro x hx hcx
        exact hneg x (List.mem_cons_of_mem a hx) hcx

/-- C6: when login issues a fresh token t2 for an account whose stored token
was t1 (and storage-level token uniqueness held, i.e. no other row carries
t1 or t2), the saved record replaces t1 with t2, so resolving t1 afterwards
is the not-found redirect while t2 resolves to the account. -/
theorem second_login_invalidates_prior_token
    (app : App) (u : User) (password t1 t2 : String)
    (hfound : DBFirstUsername app.db u.Username = .found u)
    (hpw : HashPassword password u.PasswordSalt = u.PasswordHash)
    (htok : u.BrowserToken = { valid := true, string := t1 })
    (hne : t1 ≠ t2) (ht1 : t1 ≠ "") (ht2 : t2 ≠ "")
    (hothers : ∀ v, v ∈ app.db.users → v.UUID ≠ u.UUID →
      v.Username ≠ u.Username ∧ v.PlayerName ≠ u.PlayerName ∧
      ¬(v.BrowserToken.valid = true ∧ v.BrowserToken.string = t1) ∧
      ¬(v.BrowserToken.valid = true ∧ v.BrowserToken.string = t2)) :
    withBrowserAuthentication (FrontLogin app u.Username password t2).1.db (some t1) =
      .redirectedToFront ∧
    withBrowserAuthentication (FrontLogin app u.Username password t2).1.db (some t2) =
      .authed { u with BrowserToken := { valid := true, string := t2 } } := by
  have hNoCol : ¬ ∃ x ∈ app.db.users,
      ¬x.UUID = u.UUID ∧ (x.Username = u.Username ∨ x.PlayerName = u.PlayerName) := by
    rintro ⟨x, hx, hxu, hcol⟩
    rcases hcol with h | h
    · exact (hothers x hx hxu).1 h
    · exact (hothers x hx hxu).2.1 h
  have hdb : (FrontLogin app u.Username password t2).1.db =
      { users := app.db.users.map (fun v =>
          if v.UUID = u.UUID then { u with BrowserToken := { valid := true, string := t2 } }
          else v) } := by
    simp [FrontLogin, hfound, hpw, DBSave, hNoCol, MakeNullString]
  have hmem : u ∈ app.db.users := by
    unfold DBFirstUsername at hfound
    cases hf : app.db.users.find? (fun v => decide (v.Username = u.Username)) with
    | none => rw [hf] at hfound; simp at hfound
    | some x =>
      rw [hf] at hfound
      simp only [DBResult.found.injEq] at hfound
      rw [← hfound]
      exact List.mem_of_find?_eq_some hf
  constructor
  · rw [hdb]
    have hfind : (app.db.users.map (fun v =>
        if v.UUID = u.UUID then { u with BrowserToken := { valid := true, string := t2 } }
        else v)).find?
        (fun v => v.BrowserToken.valid && decide (v.BrowserToken.string = t1)) = none := by
      rw [List.find?_eq_none]
      intro w hw
      obtain ⟨v, hv, rfl⟩ := List.mem_map.mp hw
      by_cases hvu : v.UUID = u.UUID
      · simp only [if_pos hvu]
        simp
        exact fun h => absurd h.symm hne
      · simp only [if_neg hvu]
        have h4 := (hothers v hv hvu).2.2.1
        simp only [Bool.and_eq_true, decide_eq_true_eq]
        exact fun h => h4 ⟨h.1, h.2⟩
    simp [withBrowserAuthentication, ht1, DBFirstBrowserToken, hfind]
  · rw [hdb]
    have hfind : (app.db.users.map (fun v =>
        if v.UUID = u.UUID then { u with BrowserToken := { valid := true, string := t2 } }
        else v)).find?
        (fun v => v.BrowserToken.valid && decide (v.BrowserToken.string = t2)) =
        some { u with BrowserToken := { valid := true, string := t2 } } := by
      apply find_map_marker app.db.users _ _ (fun v => decide (v.UUID = u.UUID))
      · exact ⟨u, hmem, by simp⟩
      · intro a ha hca
        have hau : a.UUID = u.UUID := of_decide_eq_true hca
        constructor
        · simp [if_pos hau]
        · exact if_pos hau
      · intro a ha hca
        have hau : ¬ a.UUID = u.UUID := of_decide_eq_false hca
        rw [if_neg hau]
        have h4 := (hothers a ha hau).2.2.2
        cases hvalid : a.BrowserToken.valid with
        | false => simp [hvalid]
        | true =>
          have hs : ¬ a.BrowserToken.string = t2 := fun h => h4 ⟨hvalid, h⟩
          simp [hvalid, hs]
    simp [withBrowserAuthentication, ht2, DBFirstBrowserToken, hfind]

/-- C6 witness: second_login_invalidates_prior_token evaluated on the
appAlice fixture, whose stored token is "t1", logging in again with the
fresh token "t2". -/
theorem second_login_invalidates_prior_token_witness :
    withBrowserAuthentication (FrontLogin appAlice "alice" "secret1" "t2").1.db (some "t1") =
      .redirectedToFront ∧
    withBrowserAuthentication (FrontLogin appAlice "alice" "secret1" "t2").1.db (some "t2") =
      .authed { aliceFix with BrowserToken := { valid := true, string := "t2" } } :=
  second_login_invalidates_prior_token appAlice aliceFix "secret1" "t1" "t2"
    (by decide) (by decide) (by decide) (by decide) (by decide) (by decide)
    (by intro v hv hvu
        exact absurd (by rw [List.mem_singleton.mp hv]) hvu)

/-- C8: deleting an account with a skin set performs, in order: clear the
session cookie, delete the account row, then delete the referenced skin
blob (and then the cape blob when present); afterwards the former skinHash
no longer resolves in the asset store. -/
theorem frontDeleteAccount_order_and_blob_removal (app : App) (user : User) (sh : String)
    (hsk : user.SkinHash = { valid := true, string := sh }) :
    (FrontDeleteAccount app user).2.2 =
      [DeleteEvent.clearedSessionCookie, DeleteEvent.deletedAccountRow user.UUID,
        DeleteEvent.deletedSkinBlob sh] ++
        (match UnmakeNullString user.CapeHash with
          | some ch => [DeleteEvent.deletedCapeBlob ch]
          | none => []) ∧
    SkinResolves (FrontDeleteAccount app user).1.assets sh = false ∧
    (FrontDeleteAccount app user).1.db =
      { users := app.db.users.filter (fun v => decide (v.UUID ≠ user.UUID)) } ∧
    (FrontDeleteAccount app user).2.1.browserToken = some "" := by
  cases hcap : user.CapeHash with
  | mk cv cs =>
    cases cv with
    | false =>
      refine ⟨?_, ?_, ?_, ?_⟩ <;>
        simp [FrontDeleteAccount, hsk, hcap, UnmakeNullString, DBDelete, DeleteSkin, DeleteCape,
          SkinResolves, List.mem_filter]
    | true =>
      refine ⟨?_, ?_, ?_, ?_⟩ <;>
        simp [FrontDeleteAccount, hsk, hcap, UnmakeNullString, DBDelete, DeleteSkin, DeleteCape,
          SkinResolves, List.mem_filter]

/-- An account fixture holding both a skin and a cape reference. -/
def userSkinCape : User :=
  { aliceFix with SkinHash := { valid := true, string := "skinhash1" }
                  CapeHash := { valid := true, string := "capehash1" } }

/-- An application state holding userSkinCape and an asset store containing
its skin and cape blobs. -/
def appSkinCape : App :=
  { config := { DefaultConfig with FrontEndServer := { URL := "/" } }
    db := { users := [userSkinCape] }
    assets := { skins := ["skinhash1"], capes := ["capehash1"] } }

/-- C8 witness: frontDeleteAccount_order_and_blob_removal evaluated on the
appSkinCape fixture. -/
theorem frontDeleteAccount_order_and_blob_removal_witness :
    (FrontDeleteAccount appSkinCape userSkinCape).2.2 =
      [DeleteEvent.clearedSessionCookie, DeleteEvent.deletedAccountRow "u1",
        DeleteEvent.deletedSkinBlob "skinhash1", DeleteEvent.deletedCapeBlob "capehash1"] ∧
    SkinResolves (FrontDeleteAccount appSkinCape userSkinCape).1.assets "skinhash1" = false ∧
    (FrontDeleteAccount appSkinCape userSkinCape).1.db = { users := [] } ∧
    (FrontDeleteAccount appSkinCape userSkinCape).2.1.browserToken = some "" :=
  frontDeleteAccount_order_and_blob_removal appSkinCape userSkinCape "skinhash1" rfl

/-- C10: in the URL-ingestion branches, after a successful download and a
successful validation, a failing SetSkin (respectively SetCape) makes
FrontUpdate return the nil error with no response written, no error
reported and no account record persisted — the application state is
unchanged. -/
theorem frontUpdate_set_failure_returns_nil
    (app : App) (user : User) (req : UpdateRequest) (w : UpdateWorld)
    (e : GoErr) (img : ValidImage)
    (h1 : IsValidPlayerName req.playerName = true)
    (h2 : IsValidPreferredLanguage req.preferredLanguage = true)
    (hpw : req.password = "")
    (h3 : IsValidSkinModel req.skinModel = true)
    (hsf : req.hasSkinFile = false) :
    (req.skinUrl ≠ "" → w.skinFetch = none → w.skinValidate = .valid img →
      w.skinSet = some e →
      FrontUpdate app user req w =
        (app, { result := .nilNoResponse, errorMessage := none, browserToken := none })) ∧
    (req.skinUrl = "" → req.hasCapeFile = false → req.capeUrl ≠ "" →
      w.capeFetch = none → w.capeValidate = .valid img → w.capeSet = some e →
      FrontUpdate app user req w =
        (app, { result := .nilNoResponse, errorMessage := none, browserToken := none })) := by
  constructor
  · intro hurl hfetch hval hset
    simp [FrontUpdate, h1, h2, hpw, h3, hsf, hurl, hfetch, hval, SetSkin, hset]
  · intro hurl hcf hcurl hfetch hval hset
    simp [FrontUpdate, h1, h2, hpw, h3, hsf, hurl, hcf, hcurl, hfetch, hval, SetCape, hset]

/-- An update request ingesting a skin by URL, changing nothing else. -/
def reqSkinUrl : UpdateRequest :=
  { playerName := "alice", password := "", preferredLanguage := "en", skinModel := "classic"
    skinUrl := "http://assets.example/skin.png", capeUrl := ""
    hasSkinFile := false, hasCapeFile := false }

/-- An update request ingesting a cape by URL, changing nothing else. -/
def reqCapeUrl : UpdateRequest :=
  { reqSkinUrl with skinUrl := "", capeUrl := "http://assets.example/cape.png" }

/-- A collaborator world in which downloads and validation succeed but the
store/assign step fails. -/
def worldSetFails : UpdateWorld :=
  { rand := rFix
    skinFileOpen := none, skinFetch := none, skinValidate := .valid { hash := "h1" }
    skinSet := some (.other "disk full")
    capeFileOpen := none, capeFetch := none, capeValidate := .valid { hash := "h1" }
    capeSet := some (.other "disk full") }

/-- C10 witness: both branches of frontUpdate_set_failure_returns_nil on
concrete fixtures. -/
theorem frontUpdate_set_failure_returns_nil_witness :
    FrontUpdate appAlice aliceFix reqSkinUrl worldSetFails =
      (appAlice, { result := .nilNoResponse, errorMessage := none, browserToken := none }) ∧
    FrontUpdate appAlice aliceFix reqCapeUrl worldSetFails =
      (appAlice, { result := .nilNoResponse, errorMessage := none, browserToken := none }) :=
  ⟨(frontUpdate_set_failure_returns_nil appAlice aliceFix reqSkinUrl worldSetFails
      (.other "disk full") { hash := "h1" } (by decide) (by decide) (by decide) (by decide)
      (by decide)).1 (by decide) rfl rfl rfl,
   (frontUpdate_set_failure_returns_nil appAlice aliceFix reqCapeUrl worldSetFails
      (.other "disk full") { hash := "h1" } (by decide) (by decide) (by decide) (by decide)
      (by decide)).2 rfl (by decide) (by decide) rfl rfl rfl⟩
